import Mathlib

/-!
Verification of the escape-sound-system playback engine (`scripts/player.py`,
`scripts/video_player.py`) against its natural-language specification.

The development shallowly embeds the Python source:
* character-level models of the string helpers (`safe_join`, `os.path.join`,
  `os.path.splitext`) used for sandboxed asset resolution;
* an exact-rational model of the volume arithmetic (`clamp01`,
  `fade_music_to`), where the Python float operations are modelled over `ℚ`;
* a state-machine model of the `SoundSystem` class: each method is a function
  from an engine state (plus a read-only config and an environment describing
  the file system and process launcher) to a new state together with a trace
  of the externally visible actions it performs.
-/

namespace EscapeSound

/-! ## Character-level string helpers (player.py lines 42-44, Python `str` methods) -/

/-- Python `str.strip()` default whitespace set. -/
def pyIsSpace (c : Char) : Bool :=
  c = ' ' || c = '\t' || c = '\n' || c = '\r' || c = '\x0b' || c = '\x0c'

/-- Python `name.strip()`: drop whitespace from both ends. -/
def pyStrip (cs : List Char) : List Char :=
  ((cs.dropWhile pyIsSpace).reverse.dropWhile pyIsSpace).reverse

/-- Python `name.lstrip("/")`: drop leading slashes. -/
def lstripSlash : List Char → List Char
  | '/' :: rest => lstripSlash rest
  | cs => cs

/-- Python `name.replace("..", "")`: remove the leftmost occurrence of `".."`
and continue after it, repeatedly (non-overlapping, left to right). -/
def removeDotDot : List Char → List Char
  | '.' :: '.' :: rest => removeDotDot rest
  | c :: rest => c :: removeDotDot rest
  | [] => []

/-- Posix `os.path.join(a, b)` for a single second component: an absolute `b`
discards `a`; otherwise the two parts are joined with `/` unless `a` is empty
or already ends in `/`. -/
def posixJoin (a b : List Char) : List Char :=
  if b.head? = some '/' then b
  else if a = [] || a.getLast? = some '/' then a ++ b
  else a ++ '/' :: b

/-- The name-cleaning pipeline of `safe_join` (player.py line 43):
`(name or "").strip().lstrip("/").replace("..", "")`. -/
def cleanName (name : List Char) : List Char :=
  removeDotDot (lstripSlash (pyStrip name))

/-- Model of `safe_join(base, name)` (player.py lines 42-44 and video_player.py
lines 25-27): clean the name, then `os.path.join(base, cleaned)`. -/
def safe_join (base name : String) : String :=
  ⟨posixJoin base.data (cleanName name.data)⟩

/-- The path `p` stays under the directory `base`: it is `base` itself or an
extension of `base ++ "/"`. -/
def staysUnder (base p : String) : Bool :=
  p = base || List.isPrefixOf (base.data ++ ['/']) p.data

/-! ## Volume arithmetic and the software fade (player.py lines 39-40, 49-65)

Python float arithmetic is modelled over the exact rationals `ℚ`. -/

/-- Model of `clamp01(x) = max(0.0, min(1.0, x))` (player.py lines 39-40). -/
def clamp01 (x : ℚ) : ℚ := max 0 (min 1 x)

/-- One iteration of the loop body of `fade_music_to` performs a volume write
followed by a blocking sleep; the whole call is recorded as the list of these
externally visible actions, in order. -/
inductive FadeStep where
  | setVol (v : ℚ)
  | sleepSec (t : ℚ)
  deriving DecidableEq, Repr

/-- Model of `fade_music_to(target, duration_ms, steps)` (player.py lines 49-65),
executed while the mixer volume is `current` (the value
`pygame.mixer.music.get_volume()` returns at the call).  Returns the ordered
trace of volume writes and `time.sleep` calls the Python code performs:
clamp the target, floor the duration at 0; a zero duration is a single
immediate write; otherwise `steps` (floored at 1) iterations each write
`clamp01(current + dv * (i + 1))` and then sleep `dt = duration_ms / steps /
1000` seconds. -/
def fade_music_to (current target : ℚ) (durationMs : ℤ) (steps : ℤ) : List FadeStep :=
  if max 0 durationMs = 0 then [FadeStep.setVol (clamp01 target)]
  else
    ((List.range (max 1 steps).toNat).map fun i : ℕ =>
      [FadeStep.setVol (clamp01 (current +
          (clamp01 target - current) / ((max 1 steps).toNat : ℚ) * ((i : ℚ) + 1))),
       FadeStep.sleepSec (((max 0 durationMs : ℤ) : ℚ) / ((max 1 steps).toNat : ℚ) / 1000)]).flatten

/-- The sequence of volume values a fade writes, in order. -/
def fadeValues (current target : ℚ) (durationMs : ℤ) (steps : ℤ) : List ℚ :=
  (fade_music_to current target durationMs steps).filterMap fun s =>
    match s with
    | FadeStep.setVol v => some v
    | FadeStep.sleepSec _ => none

/-- The total time, in seconds, a fade spends sleeping inside the calling
context. -/
def totalSleepSec (current target : ℚ) (durationMs : ℤ) (steps : ℤ) : ℚ :=
  ((fade_music_to current target durationMs steps).filterMap fun s =>
    match s with
    | FadeStep.setVol _ => none
    | FadeStep.sleepSec t => some t).sum

/-! ## Asset kind detection (player.py lines 24, 131-133, `os.path.splitext`) -/

/-- The extension component of Posix `os.path.splitext`: the suffix starting
at the last `.` of the final path component, unless every character of that
component before the last `.` is itself a `.` (so `".bashrc"` and `"..x"`
have no extension). -/
def extOf (cs : List Char) : List Char :=
  let b := (cs.reverse.takeWhile fun c => c ≠ '/').reverse
  let rb := b.reverse
  if rb.any fun c => c = '.' then
    let revAfter := rb.takeWhile fun c => c ≠ '.'
    let beforeRev := (rb.dropWhile fun c => c ≠ '.').tail
    if beforeRev.any fun c => c ≠ '.' then '.' :: revAfter.reverse else []
  else []

/-- The constant `DEFAULT_VIDEO_EXTENSIONS` (player.py line 24). -/
def defaultVideoExtensions : List String :=
  [".mp4", ".mkv", ".mov", ".avi", ".webm", ".m4v"]

/-! ## The engine: configuration, mutable state, environment -/

/-- Hint mode: `self.hint_mode ∈ {"audio", "video"}` (player.py line 110). -/
inductive HMode where
  | audio
  | video
  deriving DecidableEq, Repr

/-- The configuration-derived immutable fields `SoundSystem.__init__` reads
from `config.json` (player.py lines 81-105). -/
structure Config where
  basePath : String
  videoBasePath : String
  videoExtensions : List String
  videoMode : String
  videoConnector : String
  videoPlayerCmd : List String
  bgDefault : ℚ
  hintDefault : ℚ
  duckVolume : ℚ
  duckFadeMs : ℤ
  restoreFadeMs : ℤ
  bgFadeMs : ℤ
  deriving Repr

/-- The mutable engine state: the `SoundSystem` instance fields
(player.py lines 107-112) plus the `pygame.mixer.music` track it drives.
A video process handle is identified by the command line that launched it. -/
structure State where
  hintChannelReady : Bool
  currentHintSound : Option String
  hintPlaying : Bool
  hintMode : HMode
  bgVideoProc : Option (List String)
  hintVideoProc : Option (List String)
  musicPlaying : Bool
  musicVolume : ℚ
  deriving Repr

/-- The environment the engine runs against: which paths exist on disk
(`os.path.isfile`) and which launch command lines start successfully
(`subprocess.Popen` not raising). -/
structure Env where
  fileExists : String → Bool
  launchOk : List String → Bool

/-- Model of `is_video_file(filename)` (player.py lines 131-133):
`os.path.splitext((filename or "").strip().lower())` extension membership in
the configured extension set. -/
def is_video_file (cfg : Config) (filename : String) : Bool :=
  cfg.videoExtensions.contains ⟨extOf ((pyStrip filename.data).map Char.toLower)⟩

/-- Externally visible engine actions, recorded in call order. -/
inductive Event where
  | fade (target : ℚ) (ms : ℤ)
  | musicStop
  | musicLoad (path : String)
  | musicSetVol (v : ℚ)
  | musicPlay
  | channelStop
  | channelPlay (path : String) (v : ℚ)
  | videoStart (cmd : List String)
  deriving DecidableEq, Repr

/-- Whether an event is a volume ramp. -/
def Event.isFade : Event → Bool
  | Event.fade _ _ => true
  | _ => false

/-! ## Process supervisor (player.py lines 119-129, 135-185) -/

/-- The full player command `play_video` builds (player.py lines 162-165):
the configured player command, `--loop=inf` when looping, then the resolved
path. -/
def fullVideoCmd (cfg : Config) (path : String) (loop : Bool) : List String :=
  cfg.videoPlayerCmd ++ (if loop then ["--loop=inf"] else []) ++ [path]

/-- A command part that selects the DRM/GPU output (player.py line 168). -/
def isDrmPart (p : String) : Bool :=
  p = "--gpu-context=drm" || p = "--vo=gpu"

/-- String comparison via `List.isPrefixOf` on the character lists (Python `str.startswith`). -/
def strStartsWith (pre s : String) : Bool :=
  List.isPrefixOf pre.data s.data

/-- The DRM-free fallback command (player.py lines 169-170): drop the
`--gpu-context=drm` and `--vo=gpu` parts, then drop any
`--drm-connector=...` part. -/
def drmFallback (cmd : List String) : List String :=
  (cmd.filter fun p => !(isDrmPart p)).filter fun p => !(strStartsWith "--drm-connector=" p)

/-- The launch candidates (player.py lines 167-171): the primary command,
followed by the DRM-free fallback exactly when `video_mode == "auto"` and the
primary command carries a DRM/GPU part. -/
def videoCandidates (cfg : Config) (path : String) (loop : Bool) : List (List String) :=
  let cmd := fullVideoCmd cfg path loop
  if cfg.videoMode = "auto" && cmd.any isDrmPart then [cmd, drmFallback cmd]
  else [cmd]

/-- Model of `play_video(filename, loop)` (player.py lines 153-185): resolve the path
under the video base; a missing file or an empty player command returns no
handle; otherwise try the candidates in order, returning the first that
launches.  The second component is the list of attempted commands that failed
(each is logged by the source). -/
def play_video (cfg : Config) (env : Env) (filename : String) (loop : Bool) :
    Option (List String) × List (List String) :=
  let path := safe_join cfg.videoBasePath filename
  if !(env.fileExists path) then (none, [])
  else if cfg.videoPlayerCmd = [] then (none, [])
  else
    let cands := videoCandidates cfg path loop
    (cands.find? env.launchOk, cands.takeWhile fun c => !(env.launchOk c))

/-! ## SoundSystem operations (player.py lines 187-305)

Each method is modelled as a function to `State × List Event`.  Process
teardown (`terminate`/2-second wait/`kill`, lines 135-151) always ends with
the handle field set to `None`; only that final state is modelled. -/

/-- The net effect of a `fade_music_to` call at the engine level: the loop's
final volume write is `clamp01 target`, recorded as a single ramp event.
(The step-by-step blocking behaviour is modelled by `fade_music_to` above.) -/
def music_fade (s : State) (target : ℚ) (ms : ℤ) : State × List Event :=
  ({ s with musicVolume := clamp01 target }, [Event.fade (clamp01 target) ms])

/-- Model of `stop_bg_video` (player.py lines 135-142). -/
def stop_bg_video (s : State) : State :=
  { s with bgVideoProc := none }

/-- Model of `stop_hint_video` (player.py lines 144-151). -/
def stop_hint_video (s : State) : State :=
  { s with hintVideoProc := none }

/-- Model of `restore_bg_after_hint` (player.py lines 187-193). -/
def restore_bg_after_hint (cfg : Config) (s : State) : State × List Event :=
  let s1 := { s with hintPlaying := false, currentHintSound := none,
                     hintMode := HMode.audio, hintVideoProc := none }
  music_fade s1 cfg.bgDefault cfg.restoreFadeMs

/-- Model of `bg_start(filename)` (player.py lines 195-210). -/
def bg_start (cfg : Config) (env : Env) (s : State) (filename : String) :
    State × List Event :=
  if is_video_file cfg filename then
    let s1 := { stop_bg_video s with musicPlaying := false }
    let pv := play_video cfg env filename true
    ({ s1 with bgVideoProc := pv.1 },
     Event.musicStop :: (match pv.1 with
       | some c => [Event.videoStart c]
       | none => []))
  else
    let s1 := stop_bg_video s
    let path := safe_join cfg.basePath filename
    if env.fileExists path then
      ({ s1 with musicPlaying := true, musicVolume := clamp01 cfg.bgDefault },
       [Event.musicLoad path, Event.musicSetVol (clamp01 cfg.bgDefault), Event.musicPlay])
    else (s1, [])

/-- Model of `bg_stop` (player.py lines 212-215). -/
def bg_stop (s : State) : State × List Event :=
  ({ stop_bg_video s with musicPlaying := false }, [Event.musicStop])

/-- Model of `bg_switch(filename)` (player.py lines 217-229). -/
def bg_switch (cfg : Config) (env : Env) (s : State) (filename : String) :
    State × List Event :=
  if is_video_file cfg filename || s.bgVideoProc.isSome then
    let r1 := bg_stop s
    let r2 := bg_start cfg env r1.1 filename
    (r2.1, r1.2 ++ r2.2)
  else
    let r1 := music_fade s 0 cfg.bgFadeMs
    let r2 := bg_stop r1.1
    let r3 := bg_start cfg env r2.1 filename
    let r4 := music_fade r3.1 cfg.bgDefault cfg.bgFadeMs
    (r4.1, r1.2 ++ r2.2 ++ r3.2 ++ r4.2)

/-- Model of `panic` (player.py lines 231-242). -/
def panic (cfg : Config) (s : State) : State × List Event :=
  ({ s with hintVideoProc := none, bgVideoProc := none,
            currentHintSound := none, hintPlaying := false, hintMode := HMode.audio,
            musicPlaying := false, musicVolume := clamp01 cfg.bgDefault },
   (if s.hintChannelReady then [Event.channelStop] else []) ++
     [Event.musicStop, Event.musicSetVol (clamp01 cfg.bgDefault)])

/-- Model of `hint_stop` (player.py lines 244-252). -/
def hint_stop (cfg : Config) (s : State) : State × List Event :=
  let s1 := { s with hintVideoProc := none, currentHintSound := none,
                     hintPlaying := false, hintMode := HMode.audio }
  let r := music_fade s1 cfg.bgDefault cfg.restoreFadeMs
  (r.1, (if s.hintChannelReady then [Event.channelStop] else []) ++ r.2)

/-- Model of `hint_play_interrupt(filename, volume)` (player.py lines 254-292). -/
def hint_play_interrupt (cfg : Config) (env : Env) (s : State) (filename : String)
    (volume : Option ℚ) : State × List Event :=
  if !s.hintChannelReady then (s, [])
  else
    let s1 := { s with hintVideoProc := none, currentHintSound := none,
                       hintPlaying := false, hintMode := HMode.audio }
    let e1 := [Event.channelStop]
    if is_video_file cfg filename then
      let r2 := music_fade s1 cfg.duckVolume cfg.duckFadeMs
      let pv := play_video cfg env filename false
      match pv.1 with
      | none =>
        let r3 := music_fade r2.1 cfg.bgDefault cfg.restoreFadeMs
        (r3.1, e1 ++ r2.2 ++ r3.2)
      | some c =>
        ({ r2.1 with hintVideoProc := some c, hintPlaying := true, hintMode := HMode.video },
         e1 ++ r2.2 ++ [Event.videoStart c])
    else
      let path := safe_join cfg.basePath filename
      if !(env.fileExists path) then (s1, e1)
      else
        let r2 := music_fade s1 cfg.duckVolume cfg.duckFadeMs
        let vol := volume.getD cfg.hintDefault
        ({ r2.1 with currentHintSound := some path, hintPlaying := true,
                     hintMode := HMode.audio },
         e1 ++ r2.2 ++ [Event.channelPlay path (clamp01 vol)])

/-- Model of `tick` (player.py lines 294-305).  `channelBusy` is
`hint_channel.get_busy()` and `videoExited` is
`hint_video_proc.poll() is not None` at this tick. -/
def tick (cfg : Config) (s : State) (channelBusy videoExited : Bool) :
    State × List Event :=
  if !s.hintPlaying then (s, [])
  else if s.hintMode = HMode.video then
    if s.hintVideoProc.isSome && videoExited then restore_bg_after_hint cfg s
    else (s, [])
  else if s.hintChannelReady && !channelBusy then restore_bg_after_hint cfg s
  else (s, [])

/-! ## The message-bus hint dispatcher (player.py lines 366-375)

The inbound payload schema carries a `mode` field (spec section 6); the
`on_message` handler reads only `cmd`, `file` and `volume`. -/

/-- A normalized hint-topic payload. -/
structure HintPayload where
  cmd : String
  file : Option String
  volume : Option ℚ
  mode : Option String
  deriving Repr

/-- The hint branch of `on_message` (player.py lines 366-375): `play` with a
file dispatches `hint_play_interrupt`; `play` without a file and unknown
commands only log; `stop` dispatches `hint_stop`.  The payload `mode` field
is never consulted. -/
def on_hint_message (cfg : Config) (env : Env) (s : State) (p : HintPayload) :
    State × List Event :=
  if p.cmd = "play" then
    match p.file with
    | none => (s, [])
    | some f => hint_play_interrupt cfg env s f p.volume
  else if p.cmd = "stop" then hint_stop cfg s
  else (s, [])

/-! ## Operation sequences and reachability -/

/-- One engine operation, as dispatched by `main`/`on_message`: audio
initialisation, the three background verbs, the two hint verbs, panic, and
one tick of the main loop (with that tick's channel/process observations). -/
inductive Op where
  | initAudio
  | bgStart (f : String)
  | bgStop
  | bgSwitch (f : String)
  | hintPlay (f : String) (v : Option ℚ)
  | hintStop
  | panic
  | tick (channelBusy videoExited : Bool)

/-- Apply one operation to the state (traces dropped). -/
def step (cfg : Config) (env : Env) (s : State) : Op → State
  | Op.initAudio => { s with hintChannelReady := true }
  | Op.bgStart f => (bg_start cfg env s f).1
  | Op.bgStop => (bg_stop s).1
  | Op.bgSwitch f => (bg_switch cfg env s f).1
  | Op.hintPlay f v => (hint_play_interrupt cfg env s f v).1
  | Op.hintStop => (hint_stop cfg s).1
  | Op.panic => (panic cfg s).1
  | Op.tick b e => (tick cfg s b e).1

/-- Run a sequence of operations from a state. -/
def run (cfg : Config) (env : Env) (s : State) (ops : List Op) : State :=
  ops.foldl (step cfg env) s

/-- The state right after `SoundSystem.__init__` (player.py lines 107-112):
no hint channel yet, nothing playing, mixer music at the pygame default
volume 1.0. -/
def initState : State :=
  { hintChannelReady := false, currentHintSound := none, hintPlaying := false,
    hintMode := HMode.audio, bgVideoProc := none, hintVideoProc := none,
    musicPlaying := false, musicVolume := 1 }

/-- Hint-state consistency: a non-playing hint track holds no sound
reference, no video process, and is back in audio mode. -/
def HintInv (s : State) : Prop :=
  s.hintPlaying = false →
    s.currentHintSound = none ∧ s.hintVideoProc = none ∧ s.hintMode = HMode.audio

/-! ## Concrete fixtures, used by the counterexamples and witnesses -/

/-- A sample configuration: audio under `/a`, video under `/v`, the default
extension set, auto display mode, the non-DRM default player command, and a
background default volume of `0.5`. -/
def cfgX : Config :=
  { basePath := "/a", videoBasePath := "/v",
    videoExtensions := defaultVideoExtensions,
    videoMode := "auto", videoConnector := "HDMI-A-1",
    videoPlayerCmd := ["mpv", "--fs", "--no-terminal", "--really-quiet"],
    bgDefault := 1/2, hintDefault := 9/10, duckVolume := 1/5,
    duckFadeMs := 300, restoreFadeMs := 800, bgFadeMs := 600 }

/-- Like `cfgX` but with `video.mode = "drm"` and the DRM player command
`default_video_player_cmd` builds when DRM is forced (player.py lines
119-129). -/
def cfgDrm : Config :=
  { cfgX with
    videoMode := "drm"
    videoPlayerCmd := ["mpv", "--fs", "--no-terminal", "--really-quiet",
                       "--vo=gpu", "--gpu-context=drm", "--drm-connector=HDMI-A-1"] }

/-- Like `cfgDrm` but with `video.mode = "auto"` (a graphical-display-less
auto configuration, where the default command also carries the DRM flags). -/
def cfgAutoDrm : Config :=
  { cfgDrm with videoMode := "auto" }

/-- An environment with no files on disk. -/
def envNone : Env := { fileExists := fun _ => false, launchOk := fun _ => false }

/-- An environment where every file exists and every launch succeeds. -/
def envAll : Env := { fileExists := fun _ => true, launchOk := fun _ => true }

/-- An environment where every file exists but every launch fails. -/
def envFileOnly : Env := { fileExists := fun _ => true, launchOk := fun _ => false }

/-- A state with a running background video process. -/
def sBgVid : State :=
  { hintChannelReady := true, currentHintSound := none, hintPlaying := false,
    hintMode := HMode.audio, bgVideoProc := some ["mpv", "/v/loop.mp4"],
    hintVideoProc := none, musicPlaying := false, musicVolume := 1 }

/-- A state with an audio hint currently playing over ducked background
music. -/
def sHint : State :=
  { hintChannelReady := true, currentHintSound := some "/a/old.mp3", hintPlaying := true,
    hintMode := HMode.audio, bgVideoProc := none,
    hintVideoProc := none, musicPlaying := true, musicVolume := 1/5 }

/-- The idle state right after `init_audio`. -/
def sReady : State := { initState with hintChannelReady := true }

/-- The state `sReady` after a first queue-mode play request for `a.mp3`. -/
def sQ1 : State :=
  (on_hint_message cfgX envAll sReady ⟨"play", some "a.mp3", none, some "queue"⟩).1

/-- The state `sQ1` after a second queue-mode play request for `b.mp3`, issued while
`a.mp3` is still playing. -/
def sQ2 : State :=
  (on_hint_message cfgX envAll sQ1 ⟨"play", some "b.mp3", none, some "queue"⟩).1

/-- A state mid-hint with a video hint running and the background ducked
(the duck ramp has progressed to `0.35`). -/
def sVidHint : State :=
  { hintChannelReady := true, currentHintSound := none, hintPlaying := true,
    hintMode := HMode.video, bgVideoProc := none,
    hintVideoProc := some ["mpv", "/v/h.mp4"], musicPlaying := true,
    musicVolume := 7/20 }

/-! ## Helper lemmas about the fade arithmetic -/

theorem clamp01_of_mem {x : ℚ} (h0 : 0 ≤ x) (h1 : x ≤ 1) : clamp01 x = x := by
  unfold clamp01
  rw [min_eq_right h1, max_eq_right h0]

theorem clamp01_zero : clamp01 0 = 0 :=
  clamp01_of_mem le_rfl zero_le_one

theorem trace_filter_vols (l : List ℕ) (f : ℕ → ℚ) (dt : ℚ) :
    ((l.map fun i => [FadeStep.setVol (f i), FadeStep.sleepSec dt]).flatten).filterMap
      (fun s => match s with
        | FadeStep.setVol v => some v
        | FadeStep.sleepSec _ => none) = l.map f := by
  induction l with
  | nil => rfl
  | cons a l ih => simp [ih]

theorem trace_filter_sleeps (l : List ℕ) (f : ℕ → ℚ) (dt : ℚ) :
    ((l.map fun i => [FadeStep.setVol (f i), FadeStep.sleepSec dt]).flatten).filterMap
      (fun s => match s with
        | FadeStep.setVol _ => none
        | FadeStep.sleepSec t => some t) = l.map fun _ => dt := by
  induction l with
  | nil => rfl
  | cons a l ih => simp [ih]

/-- For a positive duration, the fade writes exactly the values of the
source's loop: `clamp01(current + dv * (i + 1))` for `i = 0 .. steps - 1`. -/
theorem fadeValues_of_pos (c t : ℚ) (d steps : ℤ) (hd : 0 < d) :
    fadeValues c t d steps =
      (List.range (max 1 steps).toNat).map fun i : ℕ =>
        clamp01 (c + (clamp01 t - c) / ((max 1 steps).toNat : ℚ) * ((i : ℚ) + 1)) := by
  have hmax : max 0 d = d := max_eq_right hd.le
  unfold fadeValues fade_music_to
  rw [hmax, if_neg hd.ne']
  exact trace_filter_vols _ _ _

/-- For a positive duration, the fade sleeps `duration_ms / 1000` seconds in
total inside the calling context. -/
theorem totalSleepSec_of_pos (c t : ℚ) (d steps : ℤ) (hd : 0 < d) :
    totalSleepSec c t d steps = (d : ℚ) / 1000 := by
  have hmax : max 0 d = d := max_eq_right hd.le
  have hn : 0 < (max 1 steps).toNat := by
    have : (1 : ℤ) ≤ max 1 steps := le_max_left _ _
    omega
  unfold totalSleepSec fade_music_to
  rw [hmax, if_neg hd.ne', trace_filter_sleeps]
  have hne : ((max 1 steps).toNat : ℚ) ≠ 0 := by
    exact_mod_cast hn.ne'
  rw [List.map_const', List.sum_replicate, List.length_range, nsmul_eq_mul]
  field_simp
  ring

/-! ## Claim theorems -/

/-- C1: the claim says `safe_join` keeps every resolved path under the base
directory.  The code removes `".."` only after stripping leading slashes, so
removing the `".."` pieces of `"../../etc/passwd"` leaves `"//etc/passwd"`,
which `os.path.join` treats as absolute, discarding the base entirely: the
spec's own example input escapes the base directory.  (A bare leading slash,
as in `"/etc/passwd"`, is neutralized as specified.) -/
theorem safe_join_escapes_base :
    safe_join "/home/pi/escape-sound-system/audio" "../../etc/passwd" = "//etc/passwd" ∧
    staysUnder "/home/pi/escape-sound-system/audio"
      (safe_join "/home/pi/escape-sound-system/audio" "../../etc/passwd") = false ∧
    safe_join "/home/pi/escape-sound-system/audio" "/etc/passwd" =
      "/home/pi/escape-sound-system/audio/etc/passwd" ∧
    staysUnder "/home/pi/escape-sound-system/audio"
      (safe_join "/home/pi/escape-sound-system/audio" "/etc/passwd") = true :=
  ⟨by decide, by decide, by decide, by decide⟩

/-- C3 counterexample: the claim says the volume ramp never blocks the
calling context.  In the code `fade_music_to` sleeps inside its loop: a fade
to 0 over 500 ms with 20 steps (the fade `bg_switch` issues) spends a total
of `1/2` second — not zero — sleeping in the caller. -/
theorem fade_blocks_caller :
    totalSleepSec (7/10) 0 500 20 = 1/2 ∧ (1/2 : ℚ) ≠ 0 := by
  constructor
  · rw [totalSleepSec_of_pos _ _ _ _ (by norm_num)]
    norm_num
  · norm_num

/-- C3 amended: for every fade with positive duration, `fade_music_to`
blocks the calling context for the fade's entire duration: the sleeps it
performs inline total exactly `duration_ms / 1000` seconds (and in
particular are nonzero); the ramp is a blocking loop, not resumable state
advanced by ticks. -/
theorem fade_sleeps_for_duration (c t : ℚ) (d steps : ℤ) (hd : 0 < d) :
    totalSleepSec c t d steps = (d : ℚ) / 1000 ∧ totalSleepSec c t d steps ≠ 0 := by
  refine ⟨totalSleepSec_of_pos c t d steps hd, ?_⟩
  rw [totalSleepSec_of_pos c t d steps hd]
  have hdq : (0 : ℚ) < (d : ℚ) := by exact_mod_cast hd
  positivity

/-- Witness for `fade_sleeps_for_duration` at the 300 ms duck fade. -/
theorem fade_sleeps_for_duration_witness :
    (0 : ℤ) < 300 ∧
    (totalSleepSec 1 (1/5) 300 20 = (300 : ℚ) / 1000 ∧ totalSleepSec 1 (1/5) 300 20 ≠ 0) :=
  ⟨by norm_num, fade_sleeps_for_duration 1 (1/5) 300 20 (by norm_num)⟩

/-- C6: with `from`, `to` in `[0,1]`, a positive duration and `steps`
clamping to `n ≥ 1`, the ramp emits exactly `n` values; writing `j` for the
0-based position (so the 1-based index is `i = j + 1`), the value at `j` is
`clamp01(from + (to - from) * (j + 1) / n)`; the final value is exactly
`to`; and a downward fade is strictly decreasing.  The fade from 0.7 to 0.3
with 20 steps of the claim is the witness. -/
theorem fade_ramp_values (c t : ℚ) (d steps : ℤ) (n : ℕ)
    (hc0 : 0 ≤ c) (hc1 : c ≤ 1) (ht0 : 0 ≤ t) (ht1 : t ≤ 1)
    (hd : 0 < d) (hn : (max 1 steps).toNat = n) :
    (fadeValues c t d steps).length = n ∧
    (∀ j : ℕ, j < n →
      (fadeValues c t d steps).getD j 0 = clamp01 (c + (t - c) * ((j : ℚ) + 1) / (n : ℚ))) ∧
    (fadeValues c t d steps).getD (n - 1) 0 = t ∧
    (t < c → List.Chain' (fun a b => b < a) (fadeValues c t d steps)) := by
  subst hn
  have hnpos : 0 < (max 1 steps).toNat := by
    have := le_max_left 1 steps
    omega
  have hNQ : (0 : ℚ) < ((max 1 steps).toNat : ℚ) := by exact_mod_cast hnpos
  rw [fadeValues_of_pos c t d steps hd, clamp01_of_mem ht0 ht1]
  have hlen : ((List.range (max 1 steps).toNat).map fun i : ℕ =>
      clamp01 (c + (t - c) / ((max 1 steps).toNat : ℚ) * ((i : ℚ) + 1))).length =
      (max 1 steps).toNat := by simp
  have hval : ∀ j : ℕ, j < (max 1 steps).toNat →
      ((List.range (max 1 steps).toNat).map fun i : ℕ =>
        clamp01 (c + (t - c) / ((max 1 steps).toNat : ℚ) * ((i : ℚ) + 1))).getD j 0 =
      clamp01 (c + (t - c) * ((j : ℚ) + 1) / ((max 1 steps).toNat : ℚ)) := by
    intro j hj
    rw [List.getD_eq_getElem _ _ (by simpa using hj)]
    simp only [List.getElem_map, List.getElem_range]
    congr 1
    ring
  refine ⟨hlen, hval, ?_, ?_⟩
  · rw [hval _ (by omega)]
    have hcast : (((max 1 steps).toNat - 1 : ℕ) : ℚ) + 1 = ((max 1 steps).toNat : ℚ) := by
      rw [Nat.cast_sub (by omega)]
      ring
    rw [hcast, mul_div_assoc, div_self hNQ.ne', mul_one]
    rw [show c + (t - c) = t by ring, clamp01_of_mem ht0 ht1]
  · intro htlt
    have hstep : ∀ k : ℕ, (k : ℚ) + 1 ≤ ((max 1 steps).toNat : ℚ) →
        clamp01 (c + (t - c) / ((max 1 steps).toNat : ℚ) * ((k : ℚ) + 1)) =
          c + (t - c) / ((max 1 steps).toNat : ℚ) * ((k : ℚ) + 1) := by
      intro k hk
      have hr0 : (0 : ℚ) < ((k : ℚ) + 1) / ((max 1 steps).toNat : ℚ) :=
        div_pos (by positivity) hNQ
      have hr1 : ((k : ℚ) + 1) / ((max 1 steps).toNat : ℚ) ≤ 1 := (div_le_one hNQ).mpr hk
      have hrw : (t - c) / ((max 1 steps).toNat : ℚ) * ((k : ℚ) + 1) =
          (t - c) * (((k : ℚ) + 1) / ((max 1 steps).toNat : ℚ)) := by ring
      rw [hrw]
      apply clamp01_of_mem
      · nlinarith [mul_nonneg (sub_nonneg.mpr htlt.le)
          (sub_nonneg.mpr hr1)]
      · nlinarith [mul_nonneg (sub_nonneg.mpr htlt.le) hr0.le]
    rw [List.chain'_map]
    obtain ⟨m, hexp⟩ : ∃ m, (max 1 steps).toNat = m + 1 :=
      ⟨(max 1 steps).toNat - 1, by omega⟩
    rw [hexp] at hstep hNQ ⊢
    rw [List.chain'_range_succ]
    intro k hk
    simp only [Nat.succ_eq_add_one]
    have hk1 : (k : ℚ) + 1 ≤ ((m + 1 : ℕ) : ℚ) := by exact_mod_cast by omega
    have hk2 : ((k + 1 : ℕ) : ℚ) + 1 ≤ ((m + 1 : ℕ) : ℚ) := by exact_mod_cast by omega
    rw [hstep k hk1, hstep (k + 1) hk2]
    have hdn : (t - c) / ((m + 1 : ℕ) : ℚ) < 0 :=
      div_neg_of_neg_of_pos (by linarith) hNQ
    have hlt : ((k : ℚ) + 1) < ((k + 1 : ℕ) : ℚ) + 1 := by push_cast; linarith
    nlinarith [mul_lt_mul_of_neg_left hlt hdn]

/-- Witness for `fade_ramp_values`: the fade from 0.7 to 0.3 over 500 ms
with 20 steps emits 20 values, strictly decreasing, ending exactly at 0.3. -/
theorem fade_ramp_values_witness :
    (fadeValues (7/10) (3/10) 500 20).length = 20 ∧
    (fadeValues (7/10) (3/10) 500 20).getD 19 0 = 3/10 ∧
    List.Chain' (fun a b => b < a) (fadeValues (7/10) (3/10) 500 20) := by
  have h := fade_ramp_values (7/10) (3/10) 500 20 20 (by norm_num) (by norm_num)
    (by norm_num) (by norm_num) (by norm_num) (by rfl)
  exact ⟨h.1, h.2.2.1, h.2.2.2 (by norm_num)⟩

/-- C2 counterexample: the claim says that when the resolved file does not
exist, `bg_start` and `hint_play_interrupt` leave the entire engine state
exactly as it was.  With no files on disk, `bg_start` still tears down the
running background video process, and `hint_play_interrupt` still stops and
clears the currently playing hint — both happen before the existence
check. -/
theorem missing_file_not_noop :
    (bg_start cfgX envNone sBgVid "x.mp3").1 ≠ sBgVid ∧
    (hint_play_interrupt cfgX envNone sHint "x.mp3" none).1 ≠ sHint := by
  constructor
  · intro h
    exact absurd (congrArg State.bgVideoProc h) (by decide)
  · intro h
    exact absurd (congrArg State.currentHintSound h) (by decide)

/-- C2 amended: on a missing file, `bg_start` and `hint_play_interrupt`
start nothing, but they are not full no-ops.  For an audio-named file,
`bg_start` first stops and clears any running background video process and
changes nothing else; `hint_play_interrupt` (with the channel ready) first
stops and clears the current hint (playing flag, current sound, hint video
process, mode) and changes nothing else.  For a video-named file,
`bg_start` additionally stops background music, and `hint_play_interrupt`
additionally ducks the background volume and then fades it back, leaving
the music volume at `clamp01(bg_default)`. -/
theorem missing_file_partial_noop (cfg : Config) (env : Env) (s : State) (f : String)
    (v : Option ℚ)
    (heA : env.fileExists (safe_join cfg.basePath f) = false)
    (heV : env.fileExists (safe_join cfg.videoBasePath f) = false) :
    (is_video_file cfg f = false →
      (bg_start cfg env s f).1 = { s with bgVideoProc := none } ∧
      (bg_start cfg env s f).2 = [] ∧
      (s.hintChannelReady = true →
        (hint_play_interrupt cfg env s f v).1 =
          { s with hintVideoProc := none, currentHintSound := none,
                   hintPlaying := false, hintMode := HMode.audio } ∧
        (hint_play_interrupt cfg env s f v).2 = [Event.channelStop])) ∧
    (is_video_file cfg f = true →
      (bg_start cfg env s f).1 = { s with bgVideoProc := none, musicPlaying := false } ∧
      (bg_start cfg env s f).2 = [Event.musicStop] ∧
      (s.hintChannelReady = true →
        (hint_play_interrupt cfg env s f v).1 =
          { s with hintVideoProc := none, currentHintSound := none,
                   hintPlaying := false, hintMode := HMode.audio,
                   musicVolume := clamp01 cfg.bgDefault } ∧
        (hint_play_interrupt cfg env s f v).2 =
          [Event.channelStop, Event.fade (clamp01 cfg.duckVolume) cfg.duckFadeMs,
           Event.fade (clamp01 cfg.bgDefault) cfg.restoreFadeMs])) := by
  refine ⟨fun hv => ⟨?_, ?_, fun hr => ⟨?_, ?_⟩⟩, fun hv => ⟨?_, ?_, fun hr => ⟨?_, ?_⟩⟩⟩
  · simp [bg_start, stop_bg_video, hv, heA]
  · simp [bg_start, stop_bg_video, hv, heA]
  · simp [hint_play_interrupt, hv, heA, hr]
  · simp [hint_play_interrupt, hv, heA, hr]
  · simp [bg_start, stop_bg_video, play_video, hv, heV]
  · simp [bg_start, stop_bg_video, play_video, hv, heV]
  · simp [hint_play_interrupt, music_fade, play_video, hv, heV, hr]
  · simp [hint_play_interrupt, music_fade, play_video, hv, heV, hr]

/-- Witness for `missing_file_partial_noop`: the sample configuration, no
files on disk, a playing hint, and the video-named file `clip.mp4`. -/
theorem missing_file_partial_noop_witness :
    envNone.fileExists (safe_join cfgX.basePath "clip.mp4") = false ∧
    envNone.fileExists (safe_join cfgX.videoBasePath "clip.mp4") = false ∧
    ((is_video_file cfgX "clip.mp4" = false →
      (bg_start cfgX envNone sHint "clip.mp4").1 = { sHint with bgVideoProc := none } ∧
      (bg_start cfgX envNone sHint "clip.mp4").2 = [] ∧
      (sHint.hintChannelReady = true →
        (hint_play_interrupt cfgX envNone sHint "clip.mp4" none).1 =
          { sHint with hintVideoProc := none, currentHintSound := none,
                       hintPlaying := false, hintMode := HMode.audio } ∧
        (hint_play_interrupt cfgX envNone sHint "clip.mp4" none).2 = [Event.channelStop])) ∧
     (is_video_file cfgX "clip.mp4" = true →
      (bg_start cfgX envNone sHint "clip.mp4").1 =
        { sHint with bgVideoProc := none, musicPlaying := false } ∧
      (bg_start cfgX envNone sHint "clip.mp4").2 = [Event.musicStop] ∧
      (sHint.hintChannelReady = true →
        (hint_play_interrupt cfgX envNone sHint "clip.mp4" none).1 =
          { sHint with hintVideoProc := none, currentHintSound := none,
                       hintPlaying := false, hintMode := HMode.audio,
                       musicVolume := clamp01 cfgX.bgDefault } ∧
        (hint_play_interrupt cfgX envNone sHint "clip.mp4" none).2 =
          [Event.channelStop, Event.fade (clamp01 cfgX.duckVolume) cfgX.duckFadeMs,
           Event.fade (clamp01 cfgX.bgDefault) cfgX.restoreFadeMs]))) :=
  ⟨by rfl, by rfl,
   missing_file_partial_noop cfgX envNone sHint "clip.mp4" none (by rfl) (by rfl)⟩

/-- C4 counterexample: the claim says a second queue-mode play request
issued while the first hint still plays is appended to a FIFO and dequeued
only once the channel reports not-busy.  The engine has no queue: the
payload's `mode` field is never read, and the second request interrupts and
replaces the first immediately — right after the second call the current
hint is `b.mp3`, not the still-unfinished `a.mp3`. -/
theorem queue_mode_interrupts :
    sQ1.currentHintSound = some "/a/a.mp3" ∧ sQ1.hintPlaying = true ∧
    sQ2.currentHintSound = some "/a/b.mp3" ∧
    sQ2.currentHintSound ≠ some "/a/a.mp3" :=
  ⟨rfl, rfl, rfl, by decide⟩

/-- C4 amended: every hint play request interrupts, regardless of its
`mode` field: from a ready engine a first request plays immediately, and a
second request issued while the first is still playing stops it and plays
the second at once.  At most one hint plays at a time (the single channel's
single current sound). -/
theorem hint_play_always_interrupts (cfg : Config) (env : Env) (s : State)
    (a b : String) (va vb : Option ℚ) (ma mb : Option String)
    (hready : s.hintChannelReady = true)
    (hva : is_video_file cfg a = false) (hvb : is_video_file cfg b = false)
    (hea : env.fileExists (safe_join cfg.basePath a) = true)
    (heb : env.fileExists (safe_join cfg.basePath b) = true) :
    ((on_hint_message cfg env s ⟨"play", some a, va, ma⟩).1.currentHintSound =
        some (safe_join cfg.basePath a) ∧
     (on_hint_message cfg env s ⟨"play", some a, va, ma⟩).1.hintPlaying = true) ∧
    ((on_hint_message cfg env (on_hint_message cfg env s ⟨"play", some a, va, ma⟩).1
        ⟨"play", some b, vb, mb⟩).1.currentHintSound = some (safe_join cfg.basePath b) ∧
     (on_hint_message cfg env (on_hint_message cfg env s ⟨"play", some a, va, ma⟩).1
        ⟨"play", some b, vb, mb⟩).1.hintPlaying = true) := by
  refine ⟨⟨?_, ?_⟩, ?_, ?_⟩ <;>
    simp [on_hint_message, hint_play_interrupt, music_fade, hready, hva, hvb, hea, heb]

/-- Witness for `hint_play_always_interrupts`: two queue-mode requests on
the idle ready engine. -/
theorem hint_play_always_interrupts_witness :
    sReady.hintChannelReady = true ∧
    (((on_hint_message cfgX envAll sReady ⟨"play", some "a.mp3", none, some "queue"⟩).1.currentHintSound =
        some (safe_join cfgX.basePath "a.mp3") ∧
      (on_hint_message cfgX envAll sReady ⟨"play", some "a.mp3", none, some "queue"⟩).1.hintPlaying = true) ∧
     ((on_hint_message cfgX envAll
         (on_hint_message cfgX envAll sReady ⟨"play", some "a.mp3", none, some "queue"⟩).1
         ⟨"play", some "b.mp3", none, some "queue"⟩).1.currentHintSound =
        some (safe_join cfgX.basePath "b.mp3") ∧
      (on_hint_message cfgX envAll
         (on_hint_message cfgX envAll sReady ⟨"play", some "a.mp3", none, some "queue"⟩).1
         ⟨"play", some "b.mp3", none, some "queue"⟩).1.hintPlaying = true)) :=
  ⟨rfl, hint_play_always_interrupts cfgX envAll sReady "a.mp3" "b.mp3" none none
    (some "queue") (some "queue") rfl (by decide) (by decide) rfl rfl⟩

/-- C5: `panic()` succeeds from every engine state — including mid-duck
with an active video hint — and its post-state has: hint not playing, no
current hint sound, no hint video process, audio mode, no background video
process, background music stopped, and the music volume set to exactly the
configured default (which the data model confines to `[0,1]`).  The volume
is set immediately: the panic trace contains no ramp event. -/
theorem panic_resets (cfg : Config) (s : State)
    (h0 : 0 ≤ cfg.bgDefault) (h1 : cfg.bgDefault ≤ 1) :
    (panic cfg s).1.hintPlaying = false ∧
    (panic cfg s).1.currentHintSound = none ∧
    (panic cfg s).1.hintVideoProc = none ∧
    (panic cfg s).1.hintMode = HMode.audio ∧
    (panic cfg s).1.bgVideoProc = none ∧
    (panic cfg s).1.musicPlaying = false ∧
    (panic cfg s).1.musicVolume = cfg.bgDefault ∧
    ((panic cfg s).2.all fun e => !e.isFade) = true := by
  refine ⟨rfl, rfl, rfl, rfl, rfl, rfl, clamp01_of_mem h0 h1, ?_⟩
  cases hb : s.hintChannelReady <;> simp [panic, hb, Event.isFade]

/-- Witness for `panic_resets`: panic during an active video hint with the
duck ramp mid-way (`sVidHint`). -/
theorem panic_resets_witness :
    (0 ≤ cfgX.bgDefault ∧ cfgX.bgDefault ≤ 1) ∧
    ((panic cfgX sVidHint).1.hintPlaying = false ∧
     (panic cfgX sVidHint).1.currentHintSound = none ∧
     (panic cfgX sVidHint).1.hintVideoProc = none ∧
     (panic cfgX sVidHint).1.hintMode = HMode.audio ∧
     (panic cfgX sVidHint).1.bgVideoProc = none ∧
     (panic cfgX sVidHint).1.musicPlaying = false ∧
     (panic cfgX sVidHint).1.musicVolume = cfgX.bgDefault ∧
     ((panic cfgX sVidHint).2.all fun e => !e.isFade) = true) :=
  ⟨⟨by norm_num [cfgX], by norm_num [cfgX]⟩,
   panic_resets cfgX sVidHint (by norm_num [cfgX]) (by norm_num [cfgX])⟩

/-- C7: on the first tick at which a playing hint reports not-busy — for an
audio hint, the ready channel is no longer busy; for a video hint, its
process has exited — the engine clears the hint state (playing false, no
sound, no video process, audio mode) and restores the background by ramping
the music volume to the default over `restore_fade_ms`. -/
theorem tick_finishes_hint (cfg : Config) (s : State) (channelBusy videoExited : Bool)
    (hp : s.hintPlaying = true)
    (h0 : 0 ≤ cfg.bgDefault) (h1 : cfg.bgDefault ≤ 1)
    (hdone : (s.hintMode = HMode.video ∧ s.hintVideoProc.isSome = true ∧ videoExited = true) ∨
      (s.hintMode = HMode.audio ∧ s.hintChannelReady = true ∧ channelBusy = false)) :
    (tick cfg s channelBusy videoExited).1.hintPlaying = false ∧
    (tick cfg s channelBusy videoExited).1.currentHintSound = none ∧
    (tick cfg s channelBusy videoExited).1.hintVideoProc = none ∧
    (tick cfg s channelBusy videoExited).1.hintMode = HMode.audio ∧
    (tick cfg s channelBusy videoExited).1.musicVolume = cfg.bgDefault ∧
    (tick cfg s channelBusy videoExited).2 = [Event.fade cfg.bgDefault cfg.restoreFadeMs] := by
  have hc := clamp01_of_mem h0 h1
  rcases hdone with ⟨hm, hvp, he⟩ | ⟨hm, hr, hb⟩
  · simp [tick, hp, hm, hvp, he, restore_bg_after_hint, music_fade, hc]
  · simp [tick, hp, hm, hr, hb, restore_bg_after_hint, music_fade, hc]

/-- Witness for `tick_finishes_hint`: the playing audio hint `sHint` on a
tick where the channel reports not-busy. -/
theorem tick_finishes_hint_witness :
    sHint.hintPlaying = true ∧
    ((tick cfgX sHint false false).1.hintPlaying = false ∧
     (tick cfgX sHint false false).1.currentHintSound = none ∧
     (tick cfgX sHint false false).1.hintVideoProc = none ∧
     (tick cfgX sHint false false).1.hintMode = HMode.audio ∧
     (tick cfgX sHint false false).1.musicVolume = cfgX.bgDefault ∧
     (tick cfgX sHint false false).2 = [Event.fade cfgX.bgDefault cfgX.restoreFadeMs]) :=
  ⟨rfl, tick_finishes_hint cfgX sHint false false rfl (by norm_num [cfgX])
    (by norm_num [cfgX]) (Or.inr ⟨rfl, rfl, rfl⟩)⟩

/-- C8: switching the background to an audio asset while the background is
audio (no video involved on either side) performs, in order: a fade of the
music volume to 0 over `bg_fade_ms`, a stop, a load/start of the new asset,
and a fade back to the default over `bg_fade_ms`; the final volume is
exactly the default. -/
theorem bg_switch_crossfade (cfg : Config) (env : Env) (s : State) (f : String)
    (hv : is_video_file cfg f = false) (hbv : s.bgVideoProc = none)
    (he : env.fileExists (safe_join cfg.basePath f) = true)
    (h0 : 0 ≤ cfg.bgDefault) (h1 : cfg.bgDefault ≤ 1) :
    (bg_switch cfg env s f).2 =
      [Event.fade 0 cfg.bgFadeMs, Event.musicStop,
       Event.musicLoad (safe_join cfg.basePath f), Event.musicSetVol cfg.bgDefault,
       Event.musicPlay, Event.fade cfg.bgDefault cfg.bgFadeMs] ∧
    (bg_switch cfg env s f).1.musicVolume = cfg.bgDefault ∧
    (bg_switch cfg env s f).1.musicPlaying = true := by
  have hc := clamp01_of_mem h0 h1
  refine ⟨?_, ?_, ?_⟩ <;>
    simp [bg_switch, bg_stop, bg_start, stop_bg_video, music_fade, hv, hbv, he, hc,
      clamp01_zero]

/-- Witness for `bg_switch_crossfade`: switching the freshly initialised
engine to `new.mp3` with all files present. -/
theorem bg_switch_crossfade_witness :
    is_video_file cfgX "new.mp3" = false ∧ initState.bgVideoProc = none ∧
    ((bg_switch cfgX envAll initState "new.mp3").2 =
      [Event.fade 0 cfgX.bgFadeMs, Event.musicStop,
       Event.musicLoad (safe_join cfgX.basePath "new.mp3"), Event.musicSetVol cfgX.bgDefault,
       Event.musicPlay, Event.fade cfgX.bgDefault cfgX.bgFadeMs] ∧
     (bg_switch cfgX envAll initState "new.mp3").1.musicVolume = cfgX.bgDefault ∧
     (bg_switch cfgX envAll initState "new.mp3").1.musicPlaying = true) :=
  ⟨by decide, rfl,
   bg_switch_crossfade cfgX envAll initState "new.mp3" (by decide) rfl rfl
     (by norm_num [cfgX]) (by norm_num [cfgX])⟩

/-- C9 counterexample: the claim says that whenever the launch command is
configured for the DRM display mode and the primary attempt fails, a
DRM-free fallback is attempted.  With `video.mode = "drm"` the command
carries the DRM/GPU flags, the primary launch fails, yet the attempted-
command log holds exactly that one DRM-flagged command — no fallback was
tried — and no handle is returned:  the fallback exists only for
`video.mode = "auto"` (player.py line 168). -/
theorem drm_mode_has_no_fallback :
    (play_video cfgDrm envFileOnly "clip.mp4" false).1 = none ∧
    (play_video cfgDrm envFileOnly "clip.mp4" false).2 =
      [["mpv", "--fs", "--no-terminal", "--really-quiet",
        "--vo=gpu", "--gpu-context=drm", "--drm-connector=HDMI-A-1", "/v/clip.mp4"]] ∧
    ((play_video cfgDrm envFileOnly "clip.mp4" false).2.all
      fun c => c.any isDrmPart) = true :=
  ⟨rfl, rfl, rfl⟩

/-- C9 amended: only in `video.mode = "auto"` does a failing DRM-flagged
primary launch trigger a fallback: the fallback command carries no DRM/GPU
flag and no `--drm-connector=` flag; if it starts it is returned as the
handle with the failed primary logged; if it also fails, no handle is
returned and both attempted commands are logged. -/
theorem video_fallback_auto_only (cfg : Config) (env : Env) (f : String) (loop : Bool)
    (hmode : cfg.videoMode = "auto")
    (hne : ¬ cfg.videoPlayerCmd = [])
    (hfile : env.fileExists (safe_join cfg.videoBasePath f) = true)
    (hdrm : (fullVideoCmd cfg (safe_join cfg.videoBasePath f) loop).any isDrmPart = true)
    (hfail : env.launchOk (fullVideoCmd cfg (safe_join cfg.videoBasePath f) loop) = false) :
    ((drmFallback (fullVideoCmd cfg (safe_join cfg.videoBasePath f) loop)).all
      (fun p => !(isDrmPart p) && !(strStartsWith "--drm-connector=" p)) = true) ∧
    (env.launchOk (drmFallback (fullVideoCmd cfg (safe_join cfg.videoBasePath f) loop)) = true →
      play_video cfg env f loop =
        (some (drmFallback (fullVideoCmd cfg (safe_join cfg.videoBasePath f) loop)),
         [fullVideoCmd cfg (safe_join cfg.videoBasePath f) loop])) ∧
    (env.launchOk (drmFallback (fullVideoCmd cfg (safe_join cfg.videoBasePath f) loop)) = false →
      play_video cfg env f loop =
        (none, [fullVideoCmd cfg (safe_join cfg.videoBasePath f) loop,
                drmFallback (fullVideoCmd cfg (safe_join cfg.videoBasePath f) loop)])) := by
  refine ⟨?_, ?_, ?_⟩
  · simp only [drmFallback, List.all_eq_true]
    intro p hp
    simp only [List.mem_filter] at hp
    simp [hp.1.2, hp.2]
  · intro hok
    simp [play_video, videoCandidates, hmode, hdrm, hfile, hfail, hok, hne,
      List.find?, List.takeWhile]
  · intro hok
    simp [play_video, videoCandidates, hmode, hdrm, hfile, hfail, hok, hne,
      List.find?, List.takeWhile]

/-- Witness for `video_fallback_auto_only`: the auto-mode DRM-flagged
configuration with every launch failing. -/
theorem video_fallback_auto_only_witness :
    cfgAutoDrm.videoMode = "auto" ∧
    (((drmFallback (fullVideoCmd cfgAutoDrm (safe_join cfgAutoDrm.videoBasePath "clip.mp4") false)).all
        (fun p => !(isDrmPart p) && !(strStartsWith "--drm-connector=" p)) = true) ∧
     (envFileOnly.launchOk
        (drmFallback (fullVideoCmd cfgAutoDrm (safe_join cfgAutoDrm.videoBasePath "clip.mp4") false)) = true →
      play_video cfgAutoDrm envFileOnly "clip.mp4" false =
        (some (drmFallback (fullVideoCmd cfgAutoDrm (safe_join cfgAutoDrm.videoBasePath "clip.mp4") false)),
         [fullVideoCmd cfgAutoDrm (safe_join cfgAutoDrm.videoBasePath "clip.mp4") false])) ∧
     (envFileOnly.launchOk
        (drmFallback (fullVideoCmd cfgAutoDrm (safe_join cfgAutoDrm.videoBasePath "clip.mp4") false)) = false →
      play_video cfgAutoDrm envFileOnly "clip.mp4" false =
        (none, [fullVideoCmd cfgAutoDrm (safe_join cfgAutoDrm.videoBasePath "clip.mp4") false,
                drmFallback (fullVideoCmd cfgAutoDrm (safe_join cfgAutoDrm.videoBasePath "clip.mp4") false)]))) :=
  ⟨rfl, video_fallback_auto_only cfgAutoDrm envFileOnly "clip.mp4" false rfl
    (by decide) rfl (by decide) rfl⟩

/-- C10: hint-state consistency.  In every state reachable from the
freshly constructed engine by any sequence of operations — audio
initialisation, background start/stop/switch, hint play/stop, panic, ticks
with any channel/process observations — `hint_playing = false` implies the
current hint sound is `None`, the hint video process is `None`, and the
hint mode is `"audio"`. -/
theorem hint_state_consistent (cfg : Config) (env : Env) (ops : List Op) :
    HintInv (run cfg env initState ops) := by
  have hinit : HintInv initState := fun _ => ⟨rfl, rfl, rfl⟩
  have hstep : ∀ (s : State) (op : Op), HintInv s → HintInv (step cfg env s op) := by
    intro s op h
    cases op with
    | initAudio => exact fun hp => h hp
    | bgStart f =>
      intro hp
      simp only [step, bg_start, stop_bg_video] at hp ⊢
      split_ifs at hp ⊢ <;> exact h hp
    | bgStop => exact fun hp => h hp
    | bgSwitch f =>
      intro hp
      simp only [step, bg_switch, bg_stop, bg_start, stop_bg_video, music_fade] at hp ⊢
      split_ifs at hp ⊢ <;> exact h hp
    | hintPlay f v =>
      intro hp
      simp only [step, hint_play_interrupt, music_fade] at hp ⊢
      split_ifs at hp ⊢
      · exact h hp
      · cases hpv : (play_video cfg env f false).1 with
        | none => exact ⟨rfl, rfl, rfl⟩
        | some c => simp [hpv] at hp
      · exact ⟨rfl, rfl, rfl⟩
    | hintStop => exact fun _ => ⟨rfl, rfl, rfl⟩
    | panic => exact fun _ => ⟨rfl, rfl, rfl⟩
    | tick b e =>
      intro hp
      simp only [step, tick, restore_bg_after_hint, music_fade] at hp ⊢
      split_ifs at hp ⊢ <;> first
        | exact h hp
        | exact ⟨rfl, rfl, rfl⟩
  suffices hall : ∀ s : State, HintInv s → HintInv (List.foldl (step cfg env) s ops) by
    exact hall initState hinit
  induction ops with
  | nil => exact fun s hs => hs
  | cons op rest ih => exact fun s hs => ih _ (hstep s op hs)

end EscapeSound
